import Mathlib

/-!
Verification model of the Potpie GitHub agent tools
(submissions/github-agno-potpie-agent/source/agent.py).

The Python module wraps a remote repository-analysis HTTP API (`Potpie`)
and exposes five agent tool functions.  We embed the code shallowly:

* A JSON response object is modelled as an association list of string
  keys to string values (`Dict`); every response field the code inspects
  (`status`, `project_id`, `conversation_id`, `message`) is a string.
* The remote HTTP layer (`requests.request` inside `Potpie._make_request`)
  is modelled by an environment `Env`: a script `behave` giving, for the
  n-th outbound call of the session, either a decoded JSON object or a
  raised Python exception, and a duration `reqDur` that the wall clock
  advances on every request (a real request always takes some time).
* Program state `St` records the trace of outbound remote calls made so
  far and the current wall-clock time (`time.time`), in whole seconds.
* Python exceptions are the `PyExc` type: `requests.exceptions.RequestException`,
  `TimeoutError`, and any other exception.  `try/except` chains are
  explicit handler lists; an unhandled exception propagates as `Except.error`.
* The `while True` polling loop of `Potpie.get_parsing_status` need not
  terminate, so it takes a fuel parameter; a `none` result means the fuel
  was exhausted (the Python loop would still be running).
* `asyncio.to_thread` offloads a blocking call and awaits it; the control
  flow is sequential, so it is modelled as a direct call.
-/

namespace PotpieAgent

/-- Python dict with string keys and string values, as an association list
in insertion order (sufficient for every response shape the code reads). -/
abbrev Dict := List (String × String)

/-- Python `d.get(k)`: the value at key `k`, or `None`. -/
def dictGet (d : Dict) (k : String) : Option String :=
  (d.find? (fun p => p.1 == k)).map (fun p => p.2)

/-- Python truthiness of an optional string: `None` and `""` are falsy. -/
def pyFalsyOpt : Option String → Bool
  | none => true
  | some v => v.isEmpty

/-- Python `str` applied to an optional string inside an f-string:
`None` prints as "None". -/
def pyStrOpt : Option String → String
  | none => "None"
  | some v => v

/-- Rendering of the entries of a Python dict by `str`/`repr`:
`\x27k\x27: \x27v\x27` joined by `", "`. -/
def pyStrDictEntries : Dict → String
  | [] => ""
  | [(k, v)] => "\x27" ++ k ++ "\x27: \x27" ++ v ++ "\x27"
  | (k, v) :: rest => "\x27" ++ k ++ "\x27: \x27" ++ v ++ "\x27, " ++ pyStrDictEntries rest

/-- Python `str(d)` for a dict of strings: `\x7b\x27k\x27: \x27v\x27, ...\x7d`. -/
def pyStrDict (d : Dict) : String :=
  "\x7b" ++ pyStrDictEntries d ++ "\x7d"

/-- One outbound remote call, with the request data the code sends
(method, endpoint and payload are determined by the constructor). -/
inductive RemoteCall
  /-- POST /parse with repo_name and branch_name. -/
  | parse (repoName branchName : String)
  /-- GET /parsing-status/{project_id}. -/
  | status (projectId : String)
  /-- POST /conversations with project_ids and optional agent_ids. -/
  | createConv (projectIds : List String) (agentIds : Option (List String))
  /-- POST /conversations/{conversation_id}/message. -/
  | sendMsg (conversationId content : String) (agentId : Option String) (nodeIds : List String)
  deriving DecidableEq, Repr

/-- A Python exception relevant to this module: the message is `str(e)`. -/
inductive PyExc
  /-- requests.exceptions.RequestException (network or HTTP failure). -/
  | requestException (msg : String)
  /-- builtins.TimeoutError, raised by the polling loop. -/
  | timeoutError (msg : String)
  /-- any other exception (e.g. a JSON decode error on a malformed body). -/
  | otherExc (msg : String)
  deriving DecidableEq, Repr

/-- Python `str(e)`. -/
def PyExc.str : PyExc → String
  | PyExc.requestException m => m
  | PyExc.timeoutError m => m
  | PyExc.otherExc m => m

/-- Membership in class requests.exceptions.RequestException. -/
def PyExc.isRequestException : PyExc → Bool
  | PyExc.requestException _ => true
  | _ => false

/-- Membership in class TimeoutError. -/
def PyExc.isTimeoutError : PyExc → Bool
  | PyExc.timeoutError _ => true
  | _ => false

/-- Membership in class Exception: every modelled exception is one. -/
def PyExc.isException : PyExc → Bool := fun _ => true

/-- Outcome of one remote call as observed by `_make_request`: either a
decoded JSON object, or an exception raised out of the request/decode. -/
inductive CallOutcome
  | ok (d : Dict)
  | raise (e : PyExc)

/-- The remote client environment: `behave n` scripts the outcome of the
n-th outbound call of the session; `reqDur` is the wall-clock seconds each
request takes (network latency observed through `time.time`). -/
structure Env where
  behave : Nat → CallOutcome
  reqDur : Nat

/-- Program state: the trace of outbound remote calls made so far in the
session, and the current wall-clock time in seconds. -/
structure St where
  calls : List RemoteCall
  now : Nat
  deriving DecidableEq, Repr

/-- Potpie._make_request: issues one request; it logs and re-raises
transport exceptions unchanged, so the scripted outcome passes through.
The call is appended to the trace and the clock advances by `reqDur`. -/
def makeRequest (env : Env) (c : RemoteCall) (s : St) : Except PyExc Dict × St :=
  match env.behave s.calls.length with
  | CallOutcome.ok d => (Except.ok d, ⟨s.calls ++ [c], s.now + env.reqDur⟩)
  | CallOutcome.raise e => (Except.error e, ⟨s.calls ++ [c], s.now + env.reqDur⟩)

/-- Potpie.parse_repository. -/
def parse_repository (env : Env) (repoName branchName : String) (s : St) :
    Except PyExc Dict × St :=
  makeRequest env (RemoteCall.parse repoName branchName) s

/-- Potpie.create_conversation: `agent_ids` is added to the payload only
when truthy (a non-empty list). -/
def create_conversation (env : Env) (projectIds : List String)
    (agentIds : Option (List String)) (s : St) : Except PyExc Dict × St :=
  makeRequest env
    (RemoteCall.createConv projectIds
      (match agentIds with
       | none => none
       | some l => if l.isEmpty then none else some l)) s

/-- Potpie.send_message: `node_ids` defaults to `[]` in the payload when
`None` is passed. -/
def send_message (env : Env) (conversationId content : String)
    (agentId : Option String) (nodeIds : Option (List String)) (s : St) :
    Except PyExc Dict × St :=
  makeRequest env
    (RemoteCall.sendMsg conversationId content agentId (nodeIds.getD [])) s

/-- The message of the TimeoutError raised by Potpie.get_parsing_status. -/
def timeoutMsg (projectId : String) (timeout : Nat) : String :=
  "Project " ++ projectId ++ " did not become ready within " ++
    toString timeout ++ " seconds."

/-- The `while True` loop of Potpie.get_parsing_status, with fuel.
`startTime` is the `time.time()` captured before the loop; each iteration
fetches the status, returns it when `wait` is false or the status equals
"ready", raises TimeoutError when the elapsed time exceeds `timeout`, and
otherwise sleeps `pollInterval` seconds and retries.  `none` means the
fuel ran out while the loop was still running. -/
def pollLoop (env : Env) (projectId : String) (wait : Bool)
    (timeout pollInterval startTime : Nat) :
    Nat → St → Option (Except PyExc Dict × St)
  | 0, _ => none
  | fuel + 1, s =>
    match makeRequest env (RemoteCall.status projectId) s with
    | (Except.error e, s1) => some (Except.error e, s1)
    | (Except.ok statusData, s1) =>
      if !wait || (dictGet statusData "status" == some "ready") then
        some (Except.ok statusData, s1)
      else if timeout < s1.now - startTime then
        some (Except.error (PyExc.timeoutError (timeoutMsg projectId timeout)), s1)
      else
        pollLoop env projectId wait timeout pollInterval startTime fuel
          ⟨s1.calls, s1.now + pollInterval⟩

/-- Potpie.get_parsing_status (Python defaults: wait_for_ready=True,
timeout=300, poll_interval=10; call sites pass them explicitly here). -/
def get_parsing_status (env : Env) (projectId : String) (waitForReady : Bool)
    (timeout pollInterval fuel : Nat) (s : St) :
    Option (Except PyExc Dict × St) :=
  pollLoop env projectId waitForReady timeout pollInterval s.now fuel s

/-- A Python `except` chain: the first clause whose class test matches the
exception formats `str(e)` into the returned string; an unmatched
exception propagates. -/
def handleChain : List ((PyExc → Bool) × (String → String)) → PyExc →
    Except PyExc String
  | [], e => Except.error e
  | (test, fmt) :: rest, e =>
    if test e then Except.ok (fmt (PyExc.str e)) else handleChain rest e

/-- A tool function body wrapped in its `try/except` chain. -/
def runTool (handlers : List ((PyExc → Bool) × (String → String)))
    (body : Except PyExc String × St) : Except PyExc String × St :=
  match body with
  | (Except.ok r, s1) => (Except.ok r, s1)
  | (Except.error e, s1) => (handleChain handlers e, s1)

/-- `runTool` lifted over fuel exhaustion. -/
def runToolO (handlers : List ((PyExc → Bool) × (String → String)))
    (body : Option (Except PyExc String × St)) :
    Option (Except PyExc String × St) :=
  match body with
  | none => none
  | some b => some (runTool handlers b)

/-- Python `c in s` for a single character: membership of `c` among the
characters of `s` (the check `\x27/\x27 not in repo_name` performs). -/
def strContainsChar (s : String) (c : Char) : Bool := s.data.contains c

/-- try-block of tool start_repo_parsing: validate the repository name
(falsy, or no "/" in it), then POST /parse; `\x27project_id\x27 in result`
is key membership. -/
def start_repo_parsing_body (env : Env) (repoName branchName : String)
    (s : St) : Except PyExc String × St :=
  if repoName.isEmpty || !(strContainsChar repoName '/') then
    (Except.ok "Invalid repository name format. Expected format: \x27owner/repo\x27", s)
  else
    match parse_repository env repoName branchName s with
    | (Except.error e, s1) => (Except.error e, s1)
    | (Except.ok result, s1) =>
      if (dictGet result "project_id").isSome then
        (Except.ok ("Successfully started parsing repository " ++ repoName ++
          "\nProject ID: " ++ (dictGet result "project_id").getD "" ++
          "\nStatus: Parsing initiated"), s1)
      else
        (Except.ok "Failed to parse repository: Invalid API response format", s1)

/-- Tool start_repo_parsing (Python default branch_name="main" is passed
explicitly at call sites). -/
def start_repo_parsing (env : Env) (repoName branchName : String) (s : St) :
    Except PyExc String × St :=
  runTool
    [(PyExc.isRequestException, fun m => "Failed to parse repository: Network error - " ++ m),
     (PyExc.isException, fun m => "Failed to parse repository: " ++ m)]
    (start_repo_parsing_body env repoName branchName s)

/-- try-block of tool check_repo_parsing_status: validate non-empty
project_id, then get_parsing_status with wait_for_ready=False; a truthy
`status` field is reported, otherwise the invalid-format string. -/
def check_repo_parsing_status_body (env : Env) (projectId : String)
    (fuel : Nat) (s : St) : Option (Except PyExc String × St) :=
  if projectId.isEmpty then
    some (Except.ok "Invalid project_id: Project ID cannot be empty", s)
  else
    match get_parsing_status env projectId false 300 10 fuel s with
    | none => none
    | some (Except.error e, s1) => some (Except.error e, s1)
    | some (Except.ok status, s1) =>
      if pyFalsyOpt (dictGet status "status") then
        some (Except.ok "Failed to get parsing status: Invalid response format", s1)
      else
        some (Except.ok ("Current parsing status: " ++
          pyStrOpt (dictGet status "status")), s1)

/-- Tool check_repo_parsing_status. -/
def check_repo_parsing_status (env : Env) (projectId : String) (fuel : Nat)
    (s : St) : Option (Except PyExc String × St) :=
  runToolO
    [(PyExc.isRequestException, fun m => "Failed to get parsing status: Network error - " ++ m),
     (PyExc.isException, fun m => "Failed to get parsing status: " ++ m)]
    (check_repo_parsing_status_body env projectId fuel s)

/-- The not-ready short-circuit string of ask_parsed_repo. -/
def notReadyMsg (projectId : String) (st : Option String) : String :=
  "Project " ++ projectId ++ " is not ready for querying. Status: " ++ pyStrOpt st

/-- try-block of tool ask_parsed_repo: wait for readiness (timeout 600),
short-circuit when the status is not "ready", create a conversation,
reject a falsy conversation_id, send the query, return str(response). -/
def ask_parsed_repo_body (env : Env) (projectId query : String) (fuel : Nat)
    (s : St) : Option (Except PyExc String × St) :=
  match get_parsing_status env projectId true 600 10 fuel s with
  | none => none
  | some (Except.error e, s1) => some (Except.error e, s1)
  | some (Except.ok parsingStatus, s1) =>
    if !(dictGet parsingStatus "status" == some "ready") then
      some (Except.ok (notReadyMsg projectId (dictGet parsingStatus "status")), s1)
    else
      match create_conversation env [projectId] none s1 with
      | (Except.error e, s2) => some (Except.error e, s2)
      | (Except.ok conversationData, s2) =>
        if pyFalsyOpt (dictGet conversationData "conversation_id") then
          some (Except.ok "Failed to create Potpie conversation.", s2)
        else
          match send_message env ((dictGet conversationData "conversation_id").getD "")
              query none none s2 with
          | (Except.error e, s3) => some (Except.error e, s3)
          | (Except.ok messageResponse, s3) =>
            some (Except.ok (pyStrDict messageResponse), s3)

/-- Tool ask_parsed_repo. -/
def ask_parsed_repo (env : Env) (projectId query : String) (fuel : Nat)
    (s : St) : Option (Except PyExc String × St) :=
  runToolO
    [(PyExc.isTimeoutError, fun m => "Timeout waiting for repository parsing to complete: " ++ m),
     (PyExc.isException, fun m => "Failed to query repository: " ++ m)]
    (ask_parsed_repo_body env projectId query fuel s)

/-- The fixed analysis prompt of analyze_repository (adjacent string
literals concatenated). -/
def analysisQuery : String :=
  "Provide a detailed analysis of this repository including: current number of stars, current number of forks, typical commit frequency (e.g., High, Medium, Low), estimated average issue response time, assessment of documentation quality (e.g., score 1-10 or description), overall code quality assessment (e.g., Excellent, Good, Fair), community engagement level (e.g., Very Active, Active, Low), and maintenance status (e.g., Well Maintained, Needs Attention)."

/-- Bool test for `s.startswith(p)`. -/
def subAt : List Char → List Char → Bool
  | [], _ => true
  | _ :: _, [] => false
  | a :: as, b :: bs => a == b && subAt as bs

/-- Does `needle` occur as a contiguous run inside `hay`? -/
def hasSub : List Char → List Char → Bool
  | n, [] => n.isEmpty
  | n, b :: bs => subAt n (b :: bs) || hasSub n bs

/-- String `pre` is a leading segment of `hay` (Python startswith). -/
def strStarts (hay pre : String) : Bool := subAt pre.data hay.data

/-- String `needle` occurs somewhere inside `hay` (Python `in`). -/
def strHasSub (hay needle : String) : Bool := hasSub needle.data hay.data

/-- try-block of tool analyze_repository: POST /parse on branch "main",
reject a falsy project_id, then call the ask_parsed_repo tool with the
fixed analysis prompt; an inner string starting with "Failed" is passed
through unchanged, otherwise wrapped in the analysis sentence. -/
def analyze_repository_body (env : Env) (repoName : String) (fuel : Nat)
    (s : St) : Option (Except PyExc String × St) :=
  match parse_repository env repoName "main" s with
  | (Except.error e, s1) => some (Except.error e, s1)
  | (Except.ok parseResult, s1) =>
    if pyFalsyOpt (dictGet parseResult "project_id") then
      some (Except.ok ("Failed to get project_id when starting parsing for " ++
        repoName ++ ". Response: " ++ pyStrDict parseResult), s1)
    else
      match ask_parsed_repo env ((dictGet parseResult "project_id").getD "")
          analysisQuery fuel s1 with
      | none => none
      | some (Except.error e, s2) => some (Except.error e, s2)
      | some (Except.ok analysisResponse, s2) =>
        if strStarts analysisResponse "Failed" then
          some (Except.ok analysisResponse, s2)
        else
          some (Except.ok ("Analysis of repository " ++ repoName ++ ": " ++
            analysisResponse), s2)

/-- Tool analyze_repository. -/
def analyze_repository (env : Env) (repoName : String) (fuel : Nat) (s : St) :
    Option (Except PyExc String × St) :=
  runToolO
    [(PyExc.isTimeoutError, fun m => "Timeout waiting for repository parsing/analysis: " ++ m),
     (PyExc.isException, fun m => "Failed to analyze repository: " ++ m)]
    (analyze_repository_body env repoName fuel s)

/-- The fixed trends prompt of get_repository_trends. -/
def trendsQuery : String :=
  "Provide recent trending metrics for this repository including: star growth rate (e.g., percentage increase over the last month), fork growth rate (e.g., percentage increase over the last month), new contributor growth (e.g., number of new contributors in the last month), and the recent commit frequency trend (e.g., Increasing, Stable, Decreasing)."

/-- try-block of tool get_repository_trends: same chain as
analyze_repository with the trends prompt.  The two
`isinstance(trends_response, dict)` branches are dead code: the inner
tool returns a string, so only the raw-response formatting is live. -/
def get_repository_trends_body (env : Env) (repoName : String) (fuel : Nat)
    (s : St) : Option (Except PyExc String × St) :=
  match parse_repository env repoName "main" s with
  | (Except.error e, s1) => some (Except.error e, s1)
  | (Except.ok parseResult, s1) =>
    if pyFalsyOpt (dictGet parseResult "project_id") then
      some (Except.ok ("Failed to get project_id when starting parsing for " ++
        repoName ++ ". Response: " ++ pyStrDict parseResult), s1)
    else
      match ask_parsed_repo env ((dictGet parseResult "project_id").getD "")
          trendsQuery fuel s1 with
      | none => none
      | some (Except.error e, s2) => some (Except.error e, s2)
      | some (Except.ok trendsResponse, s2) =>
        some (Except.ok ("Potpie trends raw response for " ++ repoName ++ ": " ++
          trendsResponse), s2)

/-- Tool get_repository_trends. -/
def get_repository_trends (env : Env) (repoName : String) (fuel : Nat)
    (s : St) : Option (Except PyExc String × St) :=
  runToolO
    [(PyExc.isTimeoutError, fun m => "Timeout waiting for repository parsing/trends: " ++ m),
     (PyExc.isException, fun m => "Failed to get repository trends: " ++ m)]
    (get_repository_trends_body env repoName fuel s)

/-- Is a tool result a returned string rather than a propagated exception? -/
def exOk : Except PyExc String → Bool
  | Except.ok _ => true
  | Except.error _ => false

/-- The first character of a string, if any. -/
def firstChar (s : String) : Option Char := s.data.head?

/-- Scripted remote responses for the ready-project scenario: a ready
status record, then a conversation record, then a message record. -/
def c2Responses : Nat → Dict
  | 0 => [("status", "ready")]
  | 1 => [("conversation_id", "c1")]
  | _ => [("message", "42")]

/-- Scripted remote responses for the polling scenario: two queued status
records, then a ready one. -/
def c3Responses : Nat → Dict
  | 0 => [("status", "queued")]
  | 1 => [("status", "queued")]
  | _ => [("status", "ready")]

/-! Helper lemmas about the string primitives. -/

theorem strDataAppend (a b : String) : (a ++ b).data = a.data ++ b.data := by
  cases a; cases b; rfl

theorem headq_append {α : Type} (l l2 : List α) (c : α) (h : l.head? = some c) :
    (l ++ l2).head? = some c := by
  cases l with
  | nil => simp at h
  | cons a as => simpa using h

theorem firstChar_append (a b : String) (c : Char) (h : firstChar a = some c) :
    firstChar (a ++ b) = some c := by
  unfold firstChar at h ⊢
  rw [strDataAppend]
  exact headq_append _ _ _ h

theorem subAt_append_left (n a b : List Char) (h : subAt n a = true) :
    subAt n (a ++ b) = true := by
  induction n generalizing a with
  | nil => simp [subAt]
  | cons c cs ih =>
    cases a with
    | nil => simp [subAt] at h
    | cons x xs =>
      simp only [List.cons_append, subAt, Bool.and_eq_true] at h ⊢
      exact ⟨h.1, ih xs h.2⟩

theorem subAt_refl (l : List Char) : subAt l l = true := by
  induction l with
  | nil => rfl
  | cons c cs ih => simp [subAt, ih]

theorem hasSub_nil_left (l : List Char) : hasSub [] l = true := by
  cases l <;> simp [hasSub, subAt]

theorem hasSub_append_left (n a b : List Char) (h : hasSub n a = true) :
    hasSub n (a ++ b) = true := by
  induction a with
  | nil =>
    cases n with
    | nil => exact hasSub_nil_left b
    | cons c cs => simp [hasSub] at h
  | cons x xs ih =>
    simp only [List.cons_append, hasSub, Bool.or_eq_true] at h ⊢
    cases h with
    | inl hp => exact Or.inl (by simpa using subAt_append_left n (x :: xs) b hp)
    | inr hh => exact Or.inr (ih hh)

theorem hasSub_append_right (n b a : List Char) (h : hasSub n b = true) :
    hasSub n (a ++ b) = true := by
  induction a with
  | nil => simpa using h
  | cons x xs ih =>
    simp only [List.cons_append, hasSub, Bool.or_eq_true]
    exact Or.inr ih

theorem hasSub_self (n : List Char) : hasSub n n = true := by
  cases n with
  | nil => rfl
  | cons c cs => simp [hasSub, subAt_refl]

theorem strStarts_append_right (pre a b : String) (h : strStarts a pre = true) :
    strStarts (a ++ b) pre = true := by
  unfold strStarts at h ⊢
  rw [strDataAppend]
  exact subAt_append_left _ _ _ h

theorem strHasSub_append_left (needle a b : String) (h : strHasSub a needle = true) :
    strHasSub (a ++ b) needle = true := by
  unfold strHasSub at h ⊢
  rw [strDataAppend]
  exact hasSub_append_left _ _ _ h

theorem strHasSub_append_right (needle a b : String) (h : strHasSub b needle = true) :
    strHasSub (a ++ b) needle = true := by
  unfold strHasSub at h ⊢
  rw [strDataAppend]
  exact hasSub_append_right _ _ _ h

theorem strHasSub_self (s : String) : strHasSub s s = true :=
  hasSub_self s.data

/-! Step lemmas for the polling loop and the exception handler chains. -/

theorem pollLoop_succ (env : Env) (projectId : String) (wait : Bool)
    (timeout pollInterval startTime fuel : Nat) (s : St) :
    pollLoop env projectId wait timeout pollInterval startTime (fuel + 1) s =
      match makeRequest env (RemoteCall.status projectId) s with
      | (Except.error e, s1) => some (Except.error e, s1)
      | (Except.ok statusData, s1) =>
        if !wait || (dictGet statusData "status" == some "ready") then
          some (Except.ok statusData, s1)
        else if timeout < s1.now - startTime then
          some (Except.error (PyExc.timeoutError (timeoutMsg projectId timeout)), s1)
        else
          pollLoop env projectId wait timeout pollInterval startTime fuel
            ⟨s1.calls, s1.now + pollInterval⟩ := rfl

theorem pollLoop_step_raise (env : Env) (projectId : String) (wait : Bool)
    (timeout pollInterval startTime fuel : Nat) (calls : List RemoteCall)
    (now : Nat) (e : PyExc)
    (hb : env.behave calls.length = CallOutcome.raise e) :
    pollLoop env projectId wait timeout pollInterval startTime (fuel + 1) ⟨calls, now⟩ =
      some (Except.error e,
        ⟨calls ++ [RemoteCall.status projectId], now + env.reqDur⟩) := by
  rw [pollLoop_succ]
  simp [makeRequest, hb]

theorem pollLoop_step_nowait (env : Env) (projectId : String)
    (timeout pollInterval startTime fuel : Nat) (calls : List RemoteCall)
    (now : Nat) (d : Dict)
    (hb : env.behave calls.length = CallOutcome.ok d) :
    pollLoop env projectId false timeout pollInterval startTime (fuel + 1) ⟨calls, now⟩ =
      some (Except.ok d,
        ⟨calls ++ [RemoteCall.status projectId], now + env.reqDur⟩) := by
  rw [pollLoop_succ]
  simp [makeRequest, hb]

theorem pollLoop_step_ready (env : Env) (projectId : String)
    (timeout pollInterval startTime fuel : Nat) (calls : List RemoteCall)
    (now : Nat) (d : Dict)
    (hb : env.behave calls.length = CallOutcome.ok d)
    (hr : (dictGet d "status" == some "ready") = true) :
    pollLoop env projectId true timeout pollInterval startTime (fuel + 1) ⟨calls, now⟩ =
      some (Except.ok d,
        ⟨calls ++ [RemoteCall.status projectId], now + env.reqDur⟩) := by
  rw [pollLoop_succ]
  simp [makeRequest, hb, hr]

theorem pollLoop_step_timeout (env : Env) (projectId : String)
    (timeout pollInterval startTime fuel : Nat) (calls : List RemoteCall)
    (now : Nat) (d : Dict)
    (hb : env.behave calls.length = CallOutcome.ok d)
    (hnr : (dictGet d "status" == some "ready") = false)
    (hto : timeout < now + env.reqDur - startTime) :
    pollLoop env projectId true timeout pollInterval startTime (fuel + 1) ⟨calls, now⟩ =
      some (Except.error (PyExc.timeoutError (timeoutMsg projectId timeout)),
        ⟨calls ++ [RemoteCall.status projectId], now + env.reqDur⟩) := by
  rw [pollLoop_succ]
  simp [makeRequest, hb, hnr, hto]

theorem pollLoop_step_notReady (env : Env) (projectId : String)
    (timeout pollInterval startTime fuel : Nat) (calls : List RemoteCall)
    (now : Nat) (d : Dict)
    (hb : env.behave calls.length = CallOutcome.ok d)
    (hnr : (dictGet d "status" == some "ready") = false)
    (hto : ¬ (timeout < now + env.reqDur - startTime)) :
    pollLoop env projectId true timeout pollInterval startTime (fuel + 1) ⟨calls, now⟩ =
      pollLoop env projectId true timeout pollInterval startTime fuel
        ⟨calls ++ [RemoteCall.status projectId],
         now + env.reqDur + pollInterval⟩ := by
  rw [pollLoop_succ]
  simp [makeRequest, hb, hnr, hto]

theorem runTool_catchall (t1 : PyExc → Bool) (f1 f2 : String → String)
    (b : Except PyExc String × St) :
    exOk (runTool [(t1, f1), (PyExc.isException, f2)] b).1 = true := by
  obtain ⟨r, s1⟩ := b
  cases r with
  | ok v => rfl
  | error e =>
    simp only [runTool, handleChain, PyExc.isException]
    cases h : t1 e <;> simp [h, exOk]

theorem runToolO_catchall (t1 : PyExc → Bool) (f1 f2 : String → String)
    (body : Option (Except PyExc String × St)) (r : Except PyExc String) (s2 : St)
    (h : runToolO [(t1, f1), (PyExc.isException, f2)] body = some (r, s2)) :
    exOk r = true := by
  cases body with
  | none => simp [runToolO] at h
  | some b =>
    simp only [runToolO, Option.some.injEq] at h
    have h1 := runTool_catchall t1 f1 f2 b
    rw [h] at h1
    exact h1

/-- When every status fetch succeeds with a non-ready record, the polling
loop (wait-for-ready, timeout 600, interval 10) eventually raises the
TimeoutError, issuing only status fetches; the fuel bound makes the loop
run long enough to pass its deadline. -/
theorem pollLoop_neverReady_timesOut (env : Env) (pid : String) (t0 : Nat)
    (hb : ∀ n, ∃ d, env.behave n = CallOutcome.ok d ∧
            (dictGet d "status" == some "ready") = false) :
    ∀ fuel a calls, a ≤ 610 → 611 ≤ a + fuel * (env.reqDur + 10) →
      ∃ k t1, pollLoop env pid true 600 10 t0 fuel ⟨calls, t0 + a⟩ =
        some (Except.error (PyExc.timeoutError (timeoutMsg pid 600)),
              ⟨calls ++ List.replicate k (RemoteCall.status pid), t1⟩) := by
  intro fuel
  induction fuel with
  | zero =>
    intro a calls ha hsum
    simp only [Nat.zero_mul] at hsum
    exact absurd hsum (by omega)
  | succ f ih =>
    intro a calls ha hsum
    obtain ⟨d, hd, hnr⟩ := hb calls.length
    by_cases hto : 600 < a + env.reqDur
    · refine ⟨1, t0 + a + env.reqDur, ?_⟩
      rw [pollLoop_step_timeout env pid 600 10 t0 f calls (t0 + a) d hd hnr (by omega)]
      simp
    · rw [pollLoop_step_notReady env pid 600 10 t0 f calls (t0 + a) d hd hnr (by omega)]
      have hmul : (f + 1) * (env.reqDur + 10) =
          f * (env.reqDur + 10) + (env.reqDur + 10) := by ring
      rw [hmul] at hsum
      have heq : t0 + a + env.reqDur + 10 = t0 + (a + env.reqDur + 10) := by omega
      rw [heq]
      have hsum2 : 611 ≤ (a + env.reqDur + 10) + f * (env.reqDur + 10) := by
        generalize hX : f * (env.reqDur + 10) = X at hsum ⊢
        omega
      obtain ⟨k, t1, hres⟩ := ih (a + env.reqDur + 10)
        (calls ++ [RemoteCall.status pid]) (by omega) hsum2
      refine ⟨k + 1, t1, ?_⟩
      rw [hres]
      simp [List.replicate_succ]

/-- The polling loop with wait-for-ready can only return a status record
whose status field equals "ready". -/
theorem pollLoop_ok_ready (env : Env) (pid : String) (timeout pollInterval t0 : Nat) :
    ∀ fuel s d s2,
      pollLoop env pid true timeout pollInterval t0 fuel s = some (Except.ok d, s2) →
      (dictGet d "status" == some "ready") = true := by
  intro fuel
  induction fuel with
  | zero => intro s d s2 h; simp [pollLoop] at h
  | succ f ih =>
    intro s d s2 h
    rw [pollLoop_succ] at h
    cases hb : env.behave s.calls.length with
    | raise e => simp [makeRequest, hb] at h
    | ok d0 =>
      simp only [makeRequest, hb, Bool.not_true, Bool.false_or] at h
      by_cases hr : (dictGet d0 "status" == some "ready") = true
      · rw [if_pos hr] at h
        simp only [Option.some.injEq, Prod.mk.injEq, Except.ok.injEq] at h
        obtain ⟨hd, _⟩ := h
        subst hd
        exact hr
      · rw [if_neg hr] at h
        by_cases hto : timeout < s.now + env.reqDur - t0
        · rw [if_pos hto] at h
          simp at h
        · rw [if_neg hto] at h
          exact ih _ _ _ h

/-- The not-ready short-circuit string starts with the letter P. -/
theorem firstChar_notReadyMsg (pid : String) (st : Option String) :
    firstChar (notReadyMsg pid st) = some 'P' := by
  unfold notReadyMsg
  apply firstChar_append
  apply firstChar_append
  apply firstChar_append
  rfl

/-- Stringified dicts start with an opening brace (code point 123). -/
theorem firstChar_pyStrDict (d : Dict) :
    firstChar (pyStrDict d) = some (Char.ofNat 123) := by
  unfold pyStrDict
  apply firstChar_append
  apply firstChar_append
  decide

/-- Every string returned by ask_parsed_repo starts with T, F or a brace,
except for the not-ready short-circuit string, which can only arise from a
returned status record whose status field fails the ready test. -/
theorem ask_result_firstChar (env : Env) (pid query : String) (fuel : Nat) (s : St)
    (r : String) (s2 : St)
    (h : ask_parsed_repo env pid query fuel s = some (Except.ok r, s2)) :
    firstChar r = some 'T' ∨ firstChar r = some 'F' ∨
    firstChar r = some (Char.ofNat 123) ∨
    (∃ d s1, get_parsing_status env pid true 600 10 fuel s = some (Except.ok d, s1) ∧
       r = notReadyMsg pid (dictGet d "status") ∧
       (dictGet d "status" == some "ready") = false) := by
  unfold ask_parsed_repo ask_parsed_repo_body at h
  cases hg : get_parsing_status env pid true 600 10 fuel s with
  | none => rw [hg] at h; simp [runToolO] at h
  | some p =>
    obtain ⟨res1, s1⟩ := p
    rw [hg] at h
    cases res1 with
    | error e =>
      simp only [runToolO, runTool, Option.some.injEq, Prod.mk.injEq] at h
      cases e with
      | timeoutError m =>
        simp only [handleChain, PyExc.isTimeoutError, PyExc.str, if_true,
          Except.ok.injEq] at h
        obtain ⟨hr, _⟩ := h
        subst hr
        exact Or.inl (firstChar_append _ _ _ rfl)
      | requestException m =>
        simp only [handleChain, PyExc.isTimeoutError, PyExc.isException, PyExc.str,
          Bool.false_eq_true, if_false, if_true, Except.ok.injEq] at h
        obtain ⟨hr, _⟩ := h
        subst hr
        exact Or.inr (Or.inl (firstChar_append _ _ _ rfl))
      | otherExc m =>
        simp only [handleChain, PyExc.isTimeoutError, PyExc.isException, PyExc.str,
          Bool.false_eq_true, if_false, if_true, Except.ok.injEq] at h
        obtain ⟨hr, _⟩ := h
        subst hr
        exact Or.inr (Or.inl (firstChar_append _ _ _ rfl))
    | ok parsingStatus =>
      simp only [runToolO, runTool] at h
      by_cases hready : (dictGet parsingStatus "status" == some "ready") = true
      · rw [if_neg (by simp [hready])] at h
        cases hb2 : env.behave s1.calls.length with
        | raise e =>
          rw [show create_conversation env [pid] none s1 = makeRequest env
              (RemoteCall.createConv [pid] none) s1 from rfl] at h
          simp only [makeRequest, hb2, runToolO, runTool, Option.some.injEq,
            Prod.mk.injEq] at h
          cases e with
          | timeoutError m =>
            simp only [handleChain, PyExc.isTimeoutError, PyExc.str, if_true,
              Except.ok.injEq] at h
            obtain ⟨hr, _⟩ := h
            subst hr
            exact Or.inl (firstChar_append _ _ _ rfl)
          | requestException m =>
            simp only [handleChain, PyExc.isTimeoutError, PyExc.isException,
              PyExc.str, Bool.false_eq_true, if_false, if_true, Except.ok.injEq] at h
            obtain ⟨hr, _⟩ := h
            subst hr
            exact Or.inr (Or.inl (firstChar_append _ _ _ rfl))
          | otherExc m =>
            simp only [handleChain, PyExc.isTimeoutError, PyExc.isException,
              PyExc.str, Bool.false_eq_true, if_false, if_true, Except.ok.injEq] at h
            obtain ⟨hr, _⟩ := h
            subst hr
            exact Or.inr (Or.inl (firstChar_append _ _ _ rfl))
        | ok convData =>
          rw [show create_conversation env [pid] none s1 = makeRequest env
              (RemoteCall.createConv [pid] none) s1 from rfl] at h
          simp only [makeRequest, hb2] at h
          by_cases hcid : pyFalsyOpt (dictGet convData "conversation_id") = true
          · rw [if_pos hcid] at h
            simp only [runToolO, runTool, Option.some.injEq, Prod.mk.injEq,
              Except.ok.injEq] at h
            obtain ⟨hr, _⟩ := h
            subst hr
            exact Or.inr (Or.inl rfl)
          · rw [if_neg hcid] at h
            cases hb3 : env.behave (s1.calls ++
                [RemoteCall.createConv [pid] none]).length with
            | raise e =>
              simp only [send_message, makeRequest, hb3, runToolO, runTool,
                Option.some.injEq, Prod.mk.injEq] at h
              cases e with
              | timeoutError m =>
                simp only [handleChain, PyExc.isTimeoutError, PyExc.str, if_true,
                  Except.ok.injEq] at h
                obtain ⟨hr, _⟩ := h
                subst hr
                exact Or.inl (firstChar_append _ _ _ rfl)
              | requestException m =>
                simp only [handleChain, PyExc.isTimeoutError, PyExc.isException,
                  PyExc.str, Bool.false_eq_true, if_false, if_true,
                  Except.ok.injEq] at h
                obtain ⟨hr, _⟩ := h
                subst hr
                exact Or.inr (Or.inl (firstChar_append _ _ _ rfl))
              | otherExc m =>
                simp only [handleChain, PyExc.isTimeoutError, PyExc.isException,
                  PyExc.str, Bool.false_eq_true, if_false, if_true,
                  Except.ok.injEq] at h
                obtain ⟨hr, _⟩ := h
                subst hr
                exact Or.inr (Or.inl (firstChar_append _ _ _ rfl))
            | ok msgResp =>
              simp only [send_message, makeRequest, hb3, runToolO, runTool,
                Option.some.injEq, Prod.mk.injEq, Except.ok.injEq] at h
              obtain ⟨hr, _⟩ := h
              subst hr
              exact Or.inr (Or.inr (Or.inl (firstChar_pyStrDict _)))
      · have hready2 : (dictGet parsingStatus "status" == some "ready") = false := by
          simpa using hready
        rw [if_pos (by simp [hready2])] at h
        simp only [runToolO, runTool, Option.some.injEq, Prod.mk.injEq,
          Except.ok.injEq] at h
        obtain ⟨hr, _⟩ := h
        subst hr
        exact Or.inr (Or.inr (Or.inr ⟨parsingStatus, s1, rfl, rfl, hready2⟩))

/-! Claims. -/

/-- Claim C1: for every tool function (start_repo_parsing,
check_repo_parsing_status, ask_parsed_repo, analyze_repository,
get_repository_trends), every input and every behaviour of the remote
client (success, transport failure, timeout, malformed response), a tool
invocation that completes returns a string and never propagates an
exception past the tool boundary. -/
theorem c1_tools_never_raise (env : Env) (s : St) :
    (∀ repoName branchName,
      exOk (start_repo_parsing env repoName branchName s).1 = true) ∧
    (∀ projectId fuel r s2,
      check_repo_parsing_status env projectId fuel s = some (r, s2) →
      exOk r = true) ∧
    (∀ projectId query fuel r s2,
      ask_parsed_repo env projectId query fuel s = some (r, s2) →
      exOk r = true) ∧
    (∀ repoName fuel r s2,
      analyze_repository env repoName fuel s = some (r, s2) → exOk r = true) ∧
    (∀ repoName fuel r s2,
      get_repository_trends env repoName fuel s = some (r, s2) →
      exOk r = true) := by
  refine ⟨fun rn bn => runTool_catchall _ _ _ _,
    fun pid fuel r s2 h => runToolO_catchall _ _ _ _ _ _ h,
    fun pid q fuel r s2 h => runToolO_catchall _ _ _ _ _ _ h,
    fun rn fuel r s2 h => runToolO_catchall _ _ _ _ _ _ h,
    fun rn fuel r s2 h => runToolO_catchall _ _ _ _ _ _ h⟩

/-- Witness for claim C1 at a concrete failing remote client. -/
theorem c1_tools_never_raise_witness :
    exOk (Except.ok "Failed to query repository: boom" : Except PyExc String) = true :=
  (c1_tools_never_raise
      ⟨fun _ => CallOutcome.raise (PyExc.requestException "boom"), 1⟩ ⟨[], 0⟩).2.2.1
    "p1" "q1" 1 (Except.ok "Failed to query repository: boom")
    ⟨[RemoteCall.status "p1"], 1⟩ rfl

/-- Claim C2: when the remote client returns, on successive calls, a ready
status record, a conversation record with id "c1", and a message record
with message "42", ask_parsed_repo issues exactly 3 remote calls in order
(get-parsing-status, create-conversation, send-message) and returns a
string containing "42". -/
theorem c2_ready_chain (pid query : String) (t0 r fuel : Nat) (hf : 0 < fuel) :
    ask_parsed_repo ⟨fun n => CallOutcome.ok (c2Responses n), r⟩ pid query fuel ⟨[], t0⟩ =
      some (Except.ok "\x7b\x27message\x27: \x2742\x27\x7d",
        ⟨[RemoteCall.status pid, RemoteCall.createConv [pid] none,
          RemoteCall.sendMsg "c1" query none []], t0 + r + r + r⟩) ∧
    strHasSub "\x7b\x27message\x27: \x2742\x27\x7d" "42" = true := by
  obtain ⟨f, rfl⟩ : ∃ f, fuel = f + 1 := ⟨fuel - 1, by omega⟩
  exact ⟨rfl, by decide⟩

/-- Witness for claim C2 at a concrete input. -/
theorem c2_ready_chain_witness :
    ask_parsed_repo ⟨fun n => CallOutcome.ok (c2Responses n), 0⟩ "p1" "q1" 1 ⟨[], 0⟩ =
      some (Except.ok "\x7b\x27message\x27: \x2742\x27\x7d",
        ⟨[RemoteCall.status "p1", RemoteCall.createConv ["p1"] none,
          RemoteCall.sendMsg "c1" "q1" none []], 0 + 0 + 0 + 0⟩) :=
  (c2_ready_chain "p1" "q1" 0 0 1 (by decide)).1

/-- Claim C3: when successive status fetches return queued, queued, ready
and the poll interval is 0 (with the default 300-second deadline not yet
exceeded), get_parsing_status with wait_for_ready true performs exactly 3
fetches and returns the ready record. -/
theorem c3_three_fetches (env : Env) (pid : String) (t0 fuel : Nat)
    (hb0 : env.behave 0 = CallOutcome.ok [("status", "queued")])
    (hb1 : env.behave 1 = CallOutcome.ok [("status", "queued")])
    (hb2 : env.behave 2 = CallOutcome.ok [("status", "ready")])
    (hf : 3 ≤ fuel) (hr : env.reqDur + env.reqDur ≤ 300) :
    get_parsing_status env pid true 300 0 fuel ⟨[], t0⟩ =
      some (Except.ok [("status", "ready")],
        ⟨[RemoteCall.status pid, RemoteCall.status pid, RemoteCall.status pid],
         t0 + env.reqDur + 0 + env.reqDur + 0 + env.reqDur⟩) := by
  obtain ⟨f, rfl⟩ : ∃ f, fuel = f + 1 + 1 + 1 := ⟨fuel - 3, by omega⟩
  show pollLoop env pid true 300 0 t0 (f + 1 + 1 + 1) ⟨[], t0⟩ = _
  rw [pollLoop_step_notReady env pid 300 0 t0 (f + 1 + 1) [] t0
        [("status", "queued")] (by simpa using hb0) (by decide) (by omega),
    pollLoop_step_notReady env pid 300 0 t0 (f + 1) ([] ++ [RemoteCall.status pid])
        (t0 + env.reqDur + 0) [("status", "queued")] (by simpa using hb1)
        (by decide) (by omega),
    pollLoop_step_ready env pid 300 0 t0 f
        (([] ++ [RemoteCall.status pid]) ++ [RemoteCall.status pid])
        (t0 + env.reqDur + 0 + env.reqDur + 0) [("status", "ready")]
        (by simpa using hb2) (by decide)]
  simp

/-- Witness for claim C3 at a concrete input. -/
theorem c3_three_fetches_witness :
    get_parsing_status ⟨fun n => CallOutcome.ok (c3Responses n), 0⟩ "p1" true 300 0 3 ⟨[], 0⟩ =
      some (Except.ok [("status", "ready")],
        ⟨[RemoteCall.status "p1", RemoteCall.status "p1", RemoteCall.status "p1"],
         0 + 0 + 0 + 0 + 0 + 0⟩) :=
  c3_three_fetches ⟨fun n => CallOutcome.ok (c3Responses n), 0⟩ "p1" 0 3
    rfl rfl rfl (by decide) (by decide)

/-- Claim C4: when every status fetch returns queued and the timeout is 0,
get_parsing_status with wait_for_ready true raises the TimeoutError on the
first check, after exactly one fetch, rather than looping; the wall clock
advances by some positive amount over a real network request. -/
theorem c4_zero_timeout (env : Env) (pid : String) (t0 fuel : Nat)
    (hb : ∀ n, env.behave n = CallOutcome.ok [("status", "queued")])
    (hr : 0 < env.reqDur) (hf : 0 < fuel) :
    get_parsing_status env pid true 0 10 fuel ⟨[], t0⟩ =
      some (Except.error (PyExc.timeoutError (timeoutMsg pid 0)),
        ⟨[RemoteCall.status pid], t0 + env.reqDur⟩) := by
  obtain ⟨f, rfl⟩ : ∃ f, fuel = f + 1 := ⟨fuel - 1, by omega⟩
  show pollLoop env pid true 0 10 t0 (f + 1) ⟨[], t0⟩ = _
  rw [pollLoop_step_timeout env pid 0 10 t0 f [] t0 [("status", "queued")]
        (by simpa using hb 0) (by decide) (by omega)]
  simp

/-- Witness for claim C4 at a concrete input. -/
theorem c4_zero_timeout_witness :
    get_parsing_status ⟨fun _ => CallOutcome.ok [("status", "queued")], 1⟩
        "p1" true 0 10 1 ⟨[], 0⟩ =
      some (Except.error (PyExc.timeoutError (timeoutMsg "p1" 0)),
        ⟨[RemoteCall.status "p1"], 0 + 1⟩) :=
  c4_zero_timeout ⟨fun _ => CallOutcome.ok [("status", "queued")], 1⟩ "p1" 0 1
    (fun n => rfl) (by decide) (by decide)

/-- Claim C5: for every project whose status never reaches ready,
ask_parsed_repo returns the timeout string (which starts with a
timeout-indicating phrase) and issues only status fetches: no
create-conversation and no send-message call; the fuel bound lets the
600-second deadline of the inner poll elapse. -/
theorem c5_timeout_no_conversation (env : Env) (pid query : String) (t0 fuel : Nat)
    (hb : ∀ n, ∃ d, env.behave n = CallOutcome.ok d ∧
            (dictGet d "status" == some "ready") = false)
    (hf : 611 ≤ fuel * (env.reqDur + 10)) :
    ∃ k t1,
      ask_parsed_repo env pid query fuel ⟨[], t0⟩ =
        some (Except.ok ("Timeout waiting for repository parsing to complete: " ++
                timeoutMsg pid 600),
              ⟨List.replicate k (RemoteCall.status pid), t1⟩) ∧
      (∀ c ∈ List.replicate k (RemoteCall.status pid), c = RemoteCall.status pid) ∧
      strStarts ("Timeout waiting for repository parsing to complete: " ++
        timeoutMsg pid 600) "Timeout" = true := by
  obtain ⟨k, t1, hres⟩ := pollLoop_neverReady_timesOut env pid t0 hb fuel 0 []
    (by omega) (by simpa using hf)
  rw [show t0 + 0 = t0 from rfl] at hres
  refine ⟨k, t1, ?_, fun c hc => List.eq_of_mem_replicate hc, ?_⟩
  · have hgp : get_parsing_status env pid true 600 10 fuel ⟨[], t0⟩ =
        some (Except.error (PyExc.timeoutError (timeoutMsg pid 600)),
              ⟨[] ++ List.replicate k (RemoteCall.status pid), t1⟩) := hres
    simp only [ask_parsed_repo, ask_parsed_repo_body, hgp, runToolO, runTool,
      handleChain, PyExc.isTimeoutError, PyExc.str, if_true, List.nil_append]
  · apply strStarts_append_right
    decide

/-- Witness for claim C5 at a concrete input. -/
theorem c5_timeout_no_conversation_witness :
    ∃ k t1,
      ask_parsed_repo ⟨fun _ => CallOutcome.ok [("status", "queued")], 0⟩
          "p1" "q1" 62 ⟨[], 0⟩ =
        some (Except.ok ("Timeout waiting for repository parsing to complete: " ++
                timeoutMsg "p1" 600),
              ⟨List.replicate k (RemoteCall.status "p1"), t1⟩) ∧
      (∀ c ∈ List.replicate k (RemoteCall.status "p1"), c = RemoteCall.status "p1") ∧
      strStarts ("Timeout waiting for repository parsing to complete: " ++
        timeoutMsg "p1" 600) "Timeout" = true :=
  c5_timeout_no_conversation ⟨fun _ => CallOutcome.ok [("status", "queued")], 0⟩
    "p1" "q1" 0 62 (fun n => ⟨[("status", "queued")], rfl, by decide⟩) (by decide)

/-- Counterexample to claim C6 as stated: a network failure inside
ask_parsed_repo is caught by its generic handler, so the returned string
does not contain the stable marker "Network error - ". -/
theorem c6_counterexample :
    ask_parsed_repo ⟨fun _ => CallOutcome.raise (PyExc.requestException "boom"), 1⟩
        "p1" "q1" 1 ⟨[], 0⟩ =
      some (Except.ok "Failed to query repository: boom",
        ⟨[RemoteCall.status "p1"], 1⟩) ∧
    strHasSub "Failed to query repository: boom" "Network error - " = false :=
  ⟨rfl, by decide⟩

/-- Claim C6 amended: the network-error message surfaces word-for-word in
the failure string of every dependent tool, but the marker
"Network error - " appears only in the strings of start_repo_parsing and
check_repo_parsing_status; the other three tools use their own failure
prefixes without the marker. -/
theorem c6_amended (env : Env) (msg repoName pid query : String) (t0 fuel : Nat)
    (hb : ∀ n, env.behave n = CallOutcome.raise (PyExc.requestException msg))
    (h1 : repoName.isEmpty = false) (h2 : strContainsChar repoName '/' = true)
    (hpid : pid.isEmpty = false) (hf : 0 < fuel) :
    (start_repo_parsing env repoName "main" ⟨[], t0⟩).1 =
        Except.ok ("Failed to parse repository: Network error - " ++ msg) ∧
    check_repo_parsing_status env pid fuel ⟨[], t0⟩ =
        some (Except.ok ("Failed to get parsing status: Network error - " ++ msg),
              ⟨[RemoteCall.status pid], t0 + env.reqDur⟩) ∧
    ask_parsed_repo env pid query fuel ⟨[], t0⟩ =
        some (Except.ok ("Failed to query repository: " ++ msg),
              ⟨[RemoteCall.status pid], t0 + env.reqDur⟩) ∧
    analyze_repository env repoName fuel ⟨[], t0⟩ =
        some (Except.ok ("Failed to analyze repository: " ++ msg),
              ⟨[RemoteCall.parse repoName "main"], t0 + env.reqDur⟩) ∧
    get_repository_trends env repoName fuel ⟨[], t0⟩ =
        some (Except.ok ("Failed to get repository trends: " ++ msg),
              ⟨[RemoteCall.parse repoName "main"], t0 + env.reqDur⟩) ∧
    strHasSub ("Failed to parse repository: Network error - " ++ msg)
      "Network error - " = true ∧
    strHasSub ("Failed to get parsing status: Network error - " ++ msg)
      "Network error - " = true ∧
    strHasSub ("Failed to query repository: " ++ msg) msg = true ∧
    strHasSub ("Failed to analyze repository: " ++ msg) msg = true ∧
    strHasSub ("Failed to get repository trends: " ++ msg) msg = true := by
  obtain ⟨f, rfl⟩ : ∃ f, fuel = f + 1 := ⟨fuel - 1, by omega⟩
  have hpoll := pollLoop_step_raise env pid false 300 10 t0 f [] t0
    (PyExc.requestException msg) (by simpa using hb 0)
  have hpoll2 := pollLoop_step_raise env pid true 600 10 t0 f [] t0
    (PyExc.requestException msg) (by simpa using hb 0)
  refine ⟨?_, ?_, ?_, ?_, ?_, ?_, ?_, ?_, ?_, ?_⟩
  · simp [start_repo_parsing, start_repo_parsing_body, h1, h2, parse_repository,
      makeRequest, hb, runTool, handleChain, PyExc.isRequestException, PyExc.str]
  · simp [check_repo_parsing_status, check_repo_parsing_status_body, hpid,
      get_parsing_status, hpoll, runToolO, runTool, handleChain,
      PyExc.isRequestException, PyExc.str]
  · simp [ask_parsed_repo, ask_parsed_repo_body, get_parsing_status, hpoll2,
      runToolO, runTool, handleChain, PyExc.isTimeoutError, PyExc.isException,
      PyExc.str]
  · simp [analyze_repository, analyze_repository_body, parse_repository,
      makeRequest, hb, runToolO, runTool, handleChain, PyExc.isTimeoutError,
      PyExc.isException, PyExc.str]
  · simp [get_repository_trends, get_repository_trends_body, parse_repository,
      makeRequest, hb, runToolO, runTool, handleChain, PyExc.isTimeoutError,
      PyExc.isException, PyExc.str]
  · apply strHasSub_append_left; decide
  · apply strHasSub_append_left; decide
  · exact strHasSub_append_right msg _ msg (strHasSub_self msg)
  · exact strHasSub_append_right msg _ msg (strHasSub_self msg)
  · exact strHasSub_append_right msg _ msg (strHasSub_self msg)

/-- Witness for the amended claim C6 at a concrete input. -/
theorem c6_amended_witness :
    (start_repo_parsing ⟨fun _ => CallOutcome.raise (PyExc.requestException "down"), 0⟩
        "o/r" "main" ⟨[], 0⟩).1 =
      Except.ok ("Failed to parse repository: Network error - " ++ "down") :=
  (c6_amended ⟨fun _ => CallOutcome.raise (PyExc.requestException "down"), 0⟩
    "down" "o/r" "p1" "q1" 0 1 (fun n => rfl)
    (by decide) (by decide) (by decide) (by decide)).1

/-- Counterexample to claim C7 as stated: the identifier "a/b/c" contains
two separator characters, not exactly one, yet start_repo_parsing accepts
it and issues the remote parse call. -/
theorem c7_counterexample :
    ("a/b/c".data.count '/' = 2) ∧
    start_repo_parsing ⟨fun _ => CallOutcome.ok [("project_id", "p9")], 0⟩
        "a/b/c" "main" ⟨[], 0⟩ =
      (Except.ok "Successfully started parsing repository a/b/c\nProject ID: p9\nStatus: Parsing initiated",
       ⟨[RemoteCall.parse "a/b/c" "main"], 0⟩) :=
  ⟨by decide, rfl⟩

/-- Claim C7 amended: start_repo_parsing proceeds to the remote parse call
exactly when the identifier is non-empty and contains at least one
separator character; otherwise it returns the validation-failure string
before any remote call.  Uniqueness of the separator is not checked. -/
theorem c7_amended (env : Env) (repoName branchName : String) (s : St) :
    (repoName.isEmpty = false → strContainsChar repoName '/' = true →
      ∃ r, start_repo_parsing env repoName branchName s =
        (r, ⟨s.calls ++ [RemoteCall.parse repoName branchName], s.now + env.reqDur⟩)) ∧
    ((repoName.isEmpty = true ∨ strContainsChar repoName '/' = false) →
      start_repo_parsing env repoName branchName s =
        (Except.ok "Invalid repository name format. Expected format: \x27owner/repo\x27",
         s)) := by
  constructor
  · intro h1 h2
    cases hb : env.behave s.calls.length with
    | ok d =>
      by_cases hp : (dictGet d "project_id").isSome
      · exact ⟨Except.ok ("Successfully started parsing repository " ++ repoName ++
            "\nProject ID: " ++ (dictGet d "project_id").getD "" ++
            "\nStatus: Parsing initiated"),
          by simp [start_repo_parsing, start_repo_parsing_body, h1, h2,
            parse_repository, makeRequest, hb, hp, runTool]⟩
      · exact ⟨Except.ok "Failed to parse repository: Invalid API response format",
          by simp [start_repo_parsing, start_repo_parsing_body, h1, h2,
            parse_repository, makeRequest, hb, hp, runTool]⟩
    | raise e =>
      exact ⟨handleChain
          [(PyExc.isRequestException,
            fun m => "Failed to parse repository: Network error - " ++ m),
           (PyExc.isException, fun m => "Failed to parse repository: " ++ m)] e,
        by simp [start_repo_parsing, start_repo_parsing_body, h1, h2,
          parse_repository, makeRequest, hb, runTool]⟩
  · intro h
    cases h with
    | inl h => simp [start_repo_parsing, start_repo_parsing_body, h, runTool]
    | inr h => simp [start_repo_parsing, start_repo_parsing_body, h, runTool]

/-- Witness for the amended claim C7 at a concrete input. -/
theorem c7_amended_witness :
    start_repo_parsing ⟨fun _ => CallOutcome.ok [], 0⟩ "norepo" "main" ⟨[], 0⟩ =
      (Except.ok "Invalid repository name format. Expected format: \x27owner/repo\x27",
       ⟨[], 0⟩) :=
  (c7_amended ⟨fun _ => CallOutcome.ok [], 0⟩ "norepo" "main" ⟨[], 0⟩).2
    (Or.inr (by decide))

/-- Claim C8: for every repo_name containing no separator character,
start_repo_parsing returns the validation-failure string and issues zero
network requests (the call trace is unchanged). -/
theorem c8_no_separator (env : Env) (repoName branchName : String) (s : St)
    (h : strContainsChar repoName '/' = false) :
    start_repo_parsing env repoName branchName s =
      (Except.ok "Invalid repository name format. Expected format: \x27owner/repo\x27",
       s) := by
  simp [start_repo_parsing, start_repo_parsing_body, h, runTool]

/-- Witness for claim C8 at a concrete input. -/
theorem c8_no_separator_witness :
    start_repo_parsing ⟨fun _ => CallOutcome.ok [("project_id", "p7")], 3⟩
        "ownerrepo" "main" ⟨[], 5⟩ =
      (Except.ok "Invalid repository name format. Expected format: \x27owner/repo\x27",
       ⟨[], 5⟩) :=
  c8_no_separator ⟨fun _ => CallOutcome.ok [("project_id", "p7")], 3⟩
    "ownerrepo" "main" ⟨[], 5⟩ (by decide)

/-- Claim C9: analyze_repository and get_repository_trends each issue the
parse call first; when the parse response has a missing or empty
project_id, each returns a failure string that references "project_id"
and performs no further remote calls. -/
theorem c9_missing_project_id (env : Env) (repoName : String) (t0 fuel : Nat) (d : Dict)
    (hb : env.behave 0 = CallOutcome.ok d)
    (hpid : pyFalsyOpt (dictGet d "project_id") = true) :
    analyze_repository env repoName fuel ⟨[], t0⟩ =
      some (Except.ok ("Failed to get project_id when starting parsing for " ++
              repoName ++ ". Response: " ++ pyStrDict d),
            ⟨[RemoteCall.parse repoName "main"], t0 + env.reqDur⟩) ∧
    get_repository_trends env repoName fuel ⟨[], t0⟩ =
      some (Except.ok ("Failed to get project_id when starting parsing for " ++
              repoName ++ ". Response: " ++ pyStrDict d),
            ⟨[RemoteCall.parse repoName "main"], t0 + env.reqDur⟩) ∧
    strHasSub ("Failed to get project_id when starting parsing for " ++
              repoName ++ ". Response: " ++ pyStrDict d) "project_id" = true := by
  refine ⟨?_, ?_, ?_⟩
  · simp [analyze_repository, analyze_repository_body, parse_repository, makeRequest,
      hb, hpid, runToolO, runTool]
  · simp [get_repository_trends, get_repository_trends_body, parse_repository,
      makeRequest, hb, hpid, runToolO, runTool]
  · apply strHasSub_append_left
    apply strHasSub_append_left
    apply strHasSub_append_left
    decide

/-- Witness for claim C9 at a concrete input. -/
theorem c9_missing_project_id_witness :
    analyze_repository ⟨fun _ => CallOutcome.ok [("detail", "bad")], 2⟩ "o/r" 1 ⟨[], 0⟩ =
      some (Except.ok ("Failed to get project_id when starting parsing for " ++
              "o/r" ++ ". Response: " ++ pyStrDict [("detail", "bad")]),
            ⟨[RemoteCall.parse "o/r" "main"], 0 + 2⟩) ∧
    get_repository_trends ⟨fun _ => CallOutcome.ok [("detail", "bad")], 2⟩ "o/r" 1 ⟨[], 0⟩ =
      some (Except.ok ("Failed to get project_id when starting parsing for " ++
              "o/r" ++ ". Response: " ++ pyStrDict [("detail", "bad")]),
            ⟨[RemoteCall.parse "o/r" "main"], 0 + 2⟩) ∧
    strHasSub ("Failed to get project_id when starting parsing for " ++
              "o/r" ++ ". Response: " ++ pyStrDict [("detail", "bad")])
      "project_id" = true :=
  c9_missing_project_id ⟨fun _ => CallOutcome.ok [("detail", "bad")], 2⟩
    "o/r" 0 1 [("detail", "bad")] rfl (by decide)

/-- Claim C10: whenever get_parsing_status with wait_for_ready true returns
normally, the returned record has status "ready"; consequently the
not-ready short-circuit branch of ask_parsed_repo is unreachable: no
string ask_parsed_repo returns can be the not-ready message. -/
theorem c10_wait_implies_ready (env : Env) (pid query : String) (fuel : Nat) (s : St) :
    (∀ timeout pollInterval d s2,
       get_parsing_status env pid true timeout pollInterval fuel s =
           some (Except.ok d, s2) →
       dictGet d "status" = some "ready") ∧
    (∀ r s2, ask_parsed_repo env pid query fuel s = some (Except.ok r, s2) →
       ∀ st, r ≠ notReadyMsg pid st) := by
  constructor
  · intro timeout pollInterval d s2 h
    exact eq_of_beq (pollLoop_ok_ready env pid timeout pollInterval s.now fuel s d s2 h)
  · intro r s2 h st heq
    rcases ask_result_firstChar env pid query fuel s r s2 h with
      h1 | h1 | h1 | ⟨d, s1, hg, hr, hnr⟩
    · rw [heq, firstChar_notReadyMsg] at h1
      exact absurd (Option.some.inj h1) (by decide)
    · rw [heq, firstChar_notReadyMsg] at h1
      exact absurd (Option.some.inj h1) (by decide)
    · rw [heq, firstChar_notReadyMsg] at h1
      exact absurd (Option.some.inj h1) (by decide)
    · have hready := pollLoop_ok_ready env pid 600 10 s.now fuel s d s1 hg
      rw [hready] at hnr
      exact absurd hnr (by decide)

/-- Witness for claim C10 at a concrete input. -/
theorem c10_wait_implies_ready_witness :
    dictGet [("status", "ready")] "status" = some "ready" :=
  (c10_wait_implies_ready ⟨fun _ => CallOutcome.ok [("status", "ready")], 0⟩
      "p1" "q1" 1 ⟨[], 0⟩).1 300 10
    [("status", "ready")] ⟨[RemoteCall.status "p1"], 0⟩ rfl

end PotpieAgent
